import Mathlib

/-
Verification development for src/lib-utils/gitlab.py (ci-py-lib).

The module is a thin, stateless HTTP API client.  We embed it shallowly:

* the process environment (`os.environ`) becomes a function
  `Environ : String → Option String`;
* the single `urlopen` call becomes an oracle input `UrlOpenOutcome`:
  either the server delivered a response with a status code and a body
  (already parsed to JSON, standing for `json.loads(result.read())`),
  or `urlopen` raised `HTTPError`, or it raised `URLError`;
* each Python function returns a record collecting the outbound request it
  built, the lines it printed, and its control-flow result (returned value,
  `sys.exit` code, or an uncaught exception).
-/

/-- JSON values, the image of Python objects handled by `json.dumps` /
`json.loads` in gitlab.py. -/
inductive Json where
  | null
  | bool (b : Bool)
  | num (n : Int)
  | str (s : String)
  | arr (elems : List Json)
  | obj (fields : List (String × Json))

/-- Mirrors the Python test `x is None`. -/
def Json.isNull : Json → Bool
  | Json.null => true
  | _ => false

/-- Python exceptions that can escape the code under study other than the
caught `HTTPError` / `URLError`. -/
inductive PyErr where
  | keyError (key : String)
  | typeError
  deriving DecidableEq, Repr

/-- First-match lookup in a JSON object's field list (a parsed JSON object has
unique keys, so this is Python dict lookup). -/
def lookupKv : List (String × Json) → String → Option Json
  | [], _ => none
  | (k, v) :: rest, key => if k = key then some v else lookupKv rest key

/-- Python subscription `j[key]`: on a dict, the value or `KeyError`;
on any non-dict value, `TypeError`. -/
def dictGetItem (j : Json) (key : String) : Except PyErr Json :=
  match j with
  | Json.obj fields =>
      match lookupKv fields key with
      | some v => Except.ok v
      | none => Except.error (PyErr.keyError key)
  | _ => Except.error PyErr.typeError

/-- The process environment: `os.environ` as a partial map. -/
def Environ : Type := String → Option String

/-- Embeds `_service_host_project` (gitlab.py lines 113-118): the
`GITLAB_HOST_PROJECT` environment variable, defaulting to `"http://"`. -/
def _service_host_project (environ : Environ) : String :=
  match environ "GITLAB_HOST_PROJECT" with
  | some v => v
  | none => "http://"

/-- Embeds `_service_access_key` (gitlab.py lines 121-126): the
`GITLAB_API_ACCESS_KEY` environment variable, defaulting to `""`. -/
def _service_access_key (environ : Environ) : String :=
  match environ "GITLAB_API_ACCESS_KEY" with
  | some v => v
  | none => ""

/-- UTF-8 encoding of a single character (byte values as naturals). -/
def charUtf8Bytes (c : Char) : List Nat :=
  let n := c.toNat
  if n < 128 then [n]
  else if n < 2048 then [192 + n / 64, 128 + n % 64]
  else if n < 65536 then [224 + n / 4096, 128 + (n / 64) % 64, 128 + n % 64]
  else [240 + n / 262144, 128 + (n / 4096) % 64, 128 + (n / 64) % 64, 128 + n % 64]

/-- Upper-case hex digit of a value below 16. -/
def hexDigit (n : Nat) : Char :=
  if n < 10 then Char.ofNat (48 + n) else Char.ofNat (55 + n)

/-- One byte of `urllib.parse.quote_plus`: alphanumerics and `_.-~` kept,
space becomes `+`, anything else percent-encoded. -/
def quoteByte (n : Nat) : String :=
  if (48 ≤ n ∧ n ≤ 57) ∨ (65 ≤ n ∧ n ≤ 90) ∨ (97 ≤ n ∧ n ≤ 122)
      ∨ n = 95 ∨ n = 46 ∨ n = 45 ∨ n = 126 then
    String.singleton (Char.ofNat n)
  else if n = 32 then "+"
  else String.mk ['%', hexDigit (n / 16), hexDigit (n % 16)]

/-- `urllib.parse.quote_plus` on a string: encode to UTF-8, quote each byte. -/
def quote_plus (s : String) : String :=
  String.join (((s.data.map charUtf8Bytes).flatten).map quoteByte)

/-- `urllib.parse.urlencode`: `key=value` pairs joined with `&`, both sides
quoted. -/
def urlencode (ps : List (String × String)) : String :=
  String.intercalate "&" (ps.map fun p => quote_plus p.1 ++ "=" ++ quote_plus p.2)

/-- An outbound HTTP request as built by gitlab.py via `urllib.request.Request`.
`data` holds the dictionary passed to `json.dumps` (whose serialization is the
request body); `none` means no body. -/
structure HttpRequest where
  url : String
  method : String
  headers : List (String × String)
  data : Option Json

/-- The oracle outcome of the one `urlopen` call: a delivered response with a
status code and parsed JSON body, or a raised `HTTPError` with a code, or a
raised `URLError` with a reason string. -/
inductive UrlOpenOutcome where
  | response (code : Nat) (body : Json)
  | httpError (code : Nat)
  | urlError (reason : String)

/-- `None`-able string, as the `assignee_id` JSON field. -/
def jsonOfOptionStr : Option String → Json
  | some s => Json.str s
  | none => Json.null

/-- Result of `merge_request`: the request it built, what it printed, and its
Python return value (`some n` a returned int, `none` the implicit `None`). -/
structure MRResult where
  request : HttpRequest
  printed : List String
  ret : Option Nat

/-- Embeds `merge_request` (gitlab.py lines 41-77).  Builds the JSON payload
and POST request, then interprets the `urlopen` outcome: a delivered response
returns `0` for code 201 and the code itself otherwise; a caught `HTTPError`
or `URLError` prints two diagnostic lines and falls off the end (returns
`None`). -/
def merge_request (environ : Environ) (source_branch target_branch : String)
    (assignee : Option String) (net : UrlOpenOutcome) : MRResult :=
  let values : Json := Json.obj
    [ ("id", Json.str (_service_host_project environ)),
      ("source_branch", Json.str source_branch),
      ("target_branch", Json.str target_branch),
      ("title", Json.str ("Merge " ++ source_branch ++ " to " ++ target_branch)),
      ("assignee_id", jsonOfOptionStr assignee),
      ("remove_source_branch", Json.bool true) ]
  let req : HttpRequest :=
    { url := _service_host_project environ ++ "/merge_requests",
      method := "POST",
      headers := [("Content-Type", "application/json"),
                  ("PRIVATE-TOKEN", _service_access_key environ)],
      data := some values }
  match net with
  | UrlOpenOutcome.response code _ =>
      { request := req, printed := [],
        ret := some (if code = 201 then 0 else code) }
  | UrlOpenOutcome.httpError code =>
      { request := req,
        printed := ["The server couldn\x27t fulfill the request.",
                    "Error code:  " ++ toString code],
        ret := none }
  | UrlOpenOutcome.urlError reason =>
      { request := req,
        printed := ["We failed to reach a server.",
                    "Reason:  " ++ reason],
        ret := none }

/-- Control-flow result of `is_include_branch`: a returned boolean, a
`sys.exit` with a code, or an uncaught exception. -/
inductive IncOutcome where
  | ret (b : Bool)
  | exit (code : Nat)
  | raise (e : PyErr)
  deriving DecidableEq, Repr

/-- Result of `is_include_branch`: request built, printed lines, control-flow
outcome. -/
structure IncResult where
  request : HttpRequest
  printed : List String
  outcome : IncOutcome

/-- Embeds `is_include_branch` (gitlab.py lines 80-110).  Builds the compare
GET request; on a delivered 200 response returns `json_data['commit'] is None`
(a missing key raises `KeyError`, uncaught since only `HTTPError` and
`URLError` are handled); every other delivered status prints
"Error receiving data {code}" and falls through to `sys.exit(1)`; caught
`HTTPError` / `URLError` print a diagnostic and also reach `sys.exit(1)`. -/
def is_include_branch (environ : Environ) (from_branch to_branch : String)
    (net : UrlOpenOutcome) : IncResult :=
  let params := urlencode [("from", from_branch), ("to", to_branch)]
  let req : HttpRequest :=
    { url := _service_host_project environ ++ "/repository/compare?" ++ params,
      method := "GET",
      headers := [("PRIVATE-TOKEN", _service_access_key environ)],
      data := none }
  match net with
  | UrlOpenOutcome.response code body =>
      if code = 200 then
        match dictGetItem body "commit" with
        | Except.ok v =>
            { request := req, printed := [], outcome := IncOutcome.ret v.isNull }
        | Except.error e =>
            { request := req, printed := [], outcome := IncOutcome.raise e }
      else
        { request := req,
          printed := ["Error receiving data " ++ toString code],
          outcome := IncOutcome.exit 1 }
  | UrlOpenOutcome.httpError code =>
      { request := req,
        printed := ["Error. Response code:  " ++ toString code],
        outcome := IncOutcome.exit 1 }
  | UrlOpenOutcome.urlError reason =>
      { request := req,
        printed := ["Error. We failed to reach a server:", reason],
        outcome := IncOutcome.exit 1 }

/-- Docstring of `merge_request`, printed as usage by the dispatcher. -/
def merge_request_doc : String :=
  " Creates a new merge request.\n\nArgs:\n    \x27source_branch\x27: The source branch.\n    \x27target_branch\x27: The target branch.\n    \x27assignee\x27: Assignee user ID (no required).\n\nThe function uses the system variables:\n    GITLAB_HOST_PROJECT - URL-encoded path of the GitLab project\n    GITLAB_API_ACCESS_KEY - Private user toke\n\nReturn value:\n     0 - on success\n     non zero - HTTP protocol errors are valid responses.\n    "

/-- Docstring of `is_include_branch`, printed as usage by the dispatcher. -/
def is_include_branch_doc : String :=
  " Checks for entry branches.\n\nArgs:\n    \x27source_branch\x27: The source branch.\n    \x27target_branch\x27: The target branch.\n\nThe function uses the system variables:\n    GITLAB_HOST_PROJECT - URL-encoded path of the GitLab project\n    GITLAB_API_ACCESS_KEY - Private user toke\n\nReturn value:\n     true/false - Diffs can have an empty diff string if diff limits are reached.\n    "

/-- Docstring of `use_as_os_command`, printed as the program usage text. -/
def use_as_os_command_doc : String :=
  "gitlab.py --merge_request <source_branch> <target_branch> [assignee]\n\n    source_branch - A hash of the issue is bound to a project.\n    target_branch - Status workflow. Issues reports should show only statuses used by the project\n    assignee - Comments about the update\n\nReturn value:\n    0 - on success\n    non zero - if any error\n    "

/-- The argparse result: the help flag (`-h` or `--help`), and the two
`nargs=*` modes
(`none` = flag absent, `some vs` = flag present with its positional values). -/
structure Args where
  help : Bool
  merge_request : Option (List String)
  isIncludeBranch : Option (List String)

/-- How the whole process ends: `sys.exit` (or implicit fall-through, exit 0),
or an uncaught Python exception escaping `use_as_os_command`. -/
inductive ProcOutcome where
  | exited (code : Nat)
  | raised (e : PyErr)
  deriving DecidableEq, Repr

/-- Result of one process invocation: every line printed, every outbound HTTP
request issued, and how the process ended. -/
structure ProcResult where
  printed : List String
  calls : List HttpRequest
  outcome : ProcOutcome

/-- Embeds `use_as_os_command` (gitlab.py lines 129-191) together with the
`if __name__ == '__main__'` harness (line 194): falling off the end of the
function ends the process with exit code 0.  `params.get(i)` on
`dict(enumerate(vs))` is `vs.get? i`. -/
def use_as_os_command (environ : Environ) (args : Args)
    (net : UrlOpenOutcome) : ProcResult :=
  if args.help then
    { printed := ["usage: " ++ use_as_os_command_doc], calls := [],
      outcome := ProcOutcome.exited 0 }
  else
    match args.merge_request with
    | some mrParams =>
        match mrParams.get? 0 with
        | none =>
            { printed := ["<source_branch> isn\x27t specified",
                          "usage: " ++ merge_request_doc],
              calls := [], outcome := ProcOutcome.exited 2 }
        | some src =>
            match mrParams.get? 1 with
            | none =>
                { printed := ["<target_branch> isn\x27t specified",
                              "usage: " ++ merge_request_doc],
                  calls := [], outcome := ProcOutcome.exited 2 }
            | some tgt =>
                let r := merge_request environ src tgt (mrParams.get? 2) net
                if r.ret ≠ some 0 then
                  { printed := r.printed ++ ["Merge request not created."],
                    calls := [r.request], outcome := ProcOutcome.exited 1 }
                else
                  { printed := r.printed, calls := [r.request],
                    outcome := ProcOutcome.exited 0 }
    | none =>
        match args.isIncludeBranch with
        | some incParams =>
            match incParams.get? 0 with
            | none =>
                { printed := ["<from_branch> isn\x27t specified",
                              "usage: " ++ is_include_branch_doc],
                  calls := [], outcome := ProcOutcome.exited 2 }
            | some fromB =>
                match incParams.get? 1 with
                | none =>
                    { printed := ["<to_branch> isn\x27t specified",
                                  "usage: " ++ is_include_branch_doc],
                      calls := [], outcome := ProcOutcome.exited 2 }
                | some toB =>
                    let r := is_include_branch environ fromB toB net
                    match r.outcome with
                    | IncOutcome.ret b =>
                        if !b then
                          { printed := r.printed ++
                              ["Changes from " ++ toB ++
                               " branch the not included to " ++ fromB ++
                               " branch."],
                            calls := [r.request],
                            outcome := ProcOutcome.exited 1 }
                        else
                          { printed := r.printed, calls := [r.request],
                            outcome := ProcOutcome.exited 0 }
                    | IncOutcome.exit c =>
                        { printed := r.printed, calls := [r.request],
                          outcome := ProcOutcome.exited c }
                    | IncOutcome.raise e =>
                        { printed := r.printed, calls := [r.request],
                          outcome := ProcOutcome.raised e }
        | none =>
            { printed := ["usage: " ++ use_as_os_command_doc], calls := [],
              outcome := ProcOutcome.exited 0 }

/-- Claim C1: for every merge-request invocation with non-empty source and
target branches in which `urlopen` delivers a response, `merge_request`
returns 0 when the HTTP status code is 201, and for any other delivered
status code (including other 2xx codes) it returns that numeric code. -/
theorem merge_request_status_mapping (environ : Environ) (s t : String)
    (a : Option String) (code : Nat) (body : Json) (_hs : s ≠ "") (_ht : t ≠ "") :
    (code = 201 →
      (merge_request environ s t a (UrlOpenOutcome.response code body)).ret = some 0)
    ∧ (code ≠ 201 →
      (merge_request environ s t a (UrlOpenOutcome.response code body)).ret = some code) := by
  constructor <;> intro h <;> simp [merge_request, h]

/-- Witness for C1 at concrete inputs: status 201 yields 0, status 204 yields
204. -/
theorem merge_request_status_mapping_witness :
    (merge_request (fun _ => none) "dev" "main" none
        (UrlOpenOutcome.response 201 Json.null)).ret = some 0
    ∧ (merge_request (fun _ => none) "dev" "main" none
        (UrlOpenOutcome.response 204 Json.null)).ret = some 204 :=
  ⟨(merge_request_status_mapping (fun _ => none) "dev" "main" none 201 Json.null
      (by decide) (by decide)).1 rfl,
   (merge_request_status_mapping (fun _ => none) "dev" "main" none 204 Json.null
      (by decide) (by decide)).2 (by decide)⟩

/-- Counterexample to claim C2 as stated: on HTTP 200 with a body whose
`commit` field is absent, the checker does not return `true` (the claim says
it must); instead the dict lookup raises `KeyError`. -/
theorem is_include_branch_absent_commit_cex :
    (is_include_branch (fun _ => none) "dev" "main"
        (UrlOpenOutcome.response 200 (Json.obj []))).outcome
      = IncOutcome.raise (PyErr.keyError "commit")
    ∧ (is_include_branch (fun _ => none) "dev" "main"
        (UrlOpenOutcome.response 200 (Json.obj []))).outcome
      ≠ IncOutcome.ret true := by
  constructor <;> decide

/-- Claim C2 (amended): on HTTP 200, when the `commit` field is PRESENT the
checker returns `true` exactly when its value is null and `false` otherwise;
and in the `true` case (commit present and null) the whole process exits 0.
(When the field is absent a `KeyError` is raised instead — see C10.) -/
theorem is_include_branch_commit_semantics (environ : Environ) (f t : String)
    (kvs : List (String × Json)) (v : Json) (h : lookupKv kvs "commit" = some v) :
    (is_include_branch environ f t
        (UrlOpenOutcome.response 200 (Json.obj kvs))).outcome
      = IncOutcome.ret v.isNull
    ∧ (v = Json.null →
        (use_as_os_command environ ⟨false, none, some [f, t]⟩
            (UrlOpenOutcome.response 200 (Json.obj kvs))).outcome
          = ProcOutcome.exited 0) := by
  constructor
  · simp [is_include_branch, dictGetItem, h]
  · intro hv
    simp [use_as_os_command, is_include_branch, dictGetItem, h, hv, Json.isNull]

/-- Witness for C2 (amended): body with `commit: null` returns true and the
process exits 0; the theorem applied at that input. -/
theorem is_include_branch_commit_semantics_witness :
    (is_include_branch (fun _ => none) "f" "t"
        (UrlOpenOutcome.response 200 (Json.obj [("commit", Json.null)]))).outcome
      = IncOutcome.ret true
    ∧ (use_as_os_command (fun _ => none) ⟨false, none, some ["f", "t"]⟩
        (UrlOpenOutcome.response 200 (Json.obj [("commit", Json.null)]))).outcome
      = ProcOutcome.exited 0 :=
  ⟨(is_include_branch_commit_semantics (fun _ => none) "f" "t"
      [("commit", Json.null)] Json.null rfl).1,
   (is_include_branch_commit_semantics (fun _ => none) "f" "t"
      [("commit", Json.null)] Json.null rfl).2 rfl⟩

/-- Claim C3: every non-200 delivered status and every transport-level
failure (`HTTPError`, `URLError`) makes `is_include_branch` print a
diagnostic and terminate the process with exit code 1; on these paths it
never returns a value to its caller. -/
theorem is_include_branch_fatal_on_error (environ : Environ) (f t : String) :
    (∀ code body, code ≠ 200 →
        (is_include_branch environ f t (UrlOpenOutcome.response code body)).outcome
            = IncOutcome.exit 1
        ∧ (is_include_branch environ f t (UrlOpenOutcome.response code body)).printed ≠ [])
    ∧ (∀ code,
        (is_include_branch environ f t (UrlOpenOutcome.httpError code)).outcome
            = IncOutcome.exit 1
        ∧ (is_include_branch environ f t (UrlOpenOutcome.httpError code)).printed ≠ [])
    ∧ (∀ reason,
        (is_include_branch environ f t (UrlOpenOutcome.urlError reason)).outcome
            = IncOutcome.exit 1
        ∧ (is_include_branch environ f t (UrlOpenOutcome.urlError reason)).printed ≠ []) := by
  refine ⟨fun code body hc => ?_, fun code => ?_, fun reason => ?_⟩
  · simp [is_include_branch, hc]
  · simp [is_include_branch]
  · simp [is_include_branch]

/-- Witness for C3: a delivered 404 response terminates with exit code 1. -/
theorem is_include_branch_fatal_on_error_witness :
    (is_include_branch (fun _ => none) "dev" "main"
        (UrlOpenOutcome.response 404 Json.null)).outcome = IncOutcome.exit 1 :=
  ((is_include_branch_fatal_on_error (fun _ => none) "dev" "main").1
    404 Json.null (by decide)).1

/-- Claim C4: in inclusion-check mode, when the checker returns `false` the
dispatcher prints the failure message with the two branch names transposed
(the second positional value in the "from" slot and the first in the "to"
slot) and exits 1; when the checker returns `true` the process exits 0. -/
theorem dispatcher_include_branch_result (environ : Environ) (f t : String)
    (rest : List String) (net : UrlOpenOutcome) :
    ((is_include_branch environ f t net).outcome = IncOutcome.ret false →
        (use_as_os_command environ ⟨false, none, some (f :: t :: rest)⟩ net).printed
            = (is_include_branch environ f t net).printed
              ++ ["Changes from " ++ t ++ " branch the not included to " ++ f
                  ++ " branch."]
        ∧ (use_as_os_command environ ⟨false, none, some (f :: t :: rest)⟩ net).outcome
            = ProcOutcome.exited 1)
    ∧ ((is_include_branch environ f t net).outcome = IncOutcome.ret true →
        (use_as_os_command environ ⟨false, none, some (f :: t :: rest)⟩ net).outcome
            = ProcOutcome.exited 0) := by
  constructor <;> intro h <;> simp [use_as_os_command, h]

/-- Witness for C4: a non-null `commit` makes the process print the
transposed message and exit 1; a null `commit` makes it exit 0. -/
theorem dispatcher_include_branch_result_witness :
    (use_as_os_command (fun _ => none) ⟨false, none, some ["alpha", "beta"]⟩
        (UrlOpenOutcome.response 200 (Json.obj [("commit", Json.str "c")]))).printed
      = ["Changes from beta branch the not included to alpha branch."]
    ∧ (use_as_os_command (fun _ => none) ⟨false, none, some ["alpha", "beta"]⟩
        (UrlOpenOutcome.response 200 (Json.obj [("commit", Json.str "c")]))).outcome
      = ProcOutcome.exited 1
    ∧ (use_as_os_command (fun _ => none) ⟨false, none, some ["alpha", "beta"]⟩
        (UrlOpenOutcome.response 200 (Json.obj [("commit", Json.null)]))).outcome
      = ProcOutcome.exited 0 :=
  ⟨((dispatcher_include_branch_result (fun _ => none) "alpha" "beta" []
      (UrlOpenOutcome.response 200 (Json.obj [("commit", Json.str "c")]))).1
      (by decide)).1,
   ((dispatcher_include_branch_result (fun _ => none) "alpha" "beta" []
      (UrlOpenOutcome.response 200 (Json.obj [("commit", Json.str "c")]))).1
      (by decide)).2,
   (dispatcher_include_branch_result (fun _ => none) "alpha" "beta" []
      (UrlOpenOutcome.response 200 (Json.obj [("commit", Json.null)]))).2
      (by decide)⟩

/-- Claim C5: the merge-request call builds a POST to
`{baseUrl}/merge_requests` whose JSON body has `id` equal to the base URL,
the given source and target branches, title "Merge s to t", `assignee_id`
the given assignee or null when absent, and `remove_source_branch` true,
with headers Content-Type: application/json and PRIVATE-TOKEN set to the
access token. -/
theorem merge_request_request_shape (environ : Environ) (s t : String)
    (a : Option String) (net : UrlOpenOutcome) :
    (merge_request environ s t a net).request.method = "POST"
    ∧ (merge_request environ s t a net).request.url
        = _service_host_project environ ++ "/merge_requests"
    ∧ (merge_request environ s t a net).request.headers
        = [("Content-Type", "application/json"),
           ("PRIVATE-TOKEN", _service_access_key environ)]
    ∧ (merge_request environ s t a net).request.data
        = some (Json.obj
            [ ("id", Json.str (_service_host_project environ)),
              ("source_branch", Json.str s),
              ("target_branch", Json.str t),
              ("title", Json.str ("Merge " ++ s ++ " to " ++ t)),
              ("assignee_id",
                match a with
                | some u => Json.str u
                | none => Json.null),
              ("remove_source_branch", Json.bool true) ]) := by
  cases net <;> cases a <;> simp [merge_request, jsonOfOptionStr]

/-- Claim C6: merge-request mode with zero positional values prints the
source-branch-missing message plus usage and exits 2; with exactly one value
it prints the target-branch-missing message plus usage and exits 2; in both
cases no HTTP call is made. -/
theorem dispatcher_missing_branch_args (environ : Environ) (s : String)
    (net : UrlOpenOutcome) :
    ((use_as_os_command environ ⟨false, some [], none⟩ net).printed
        = ["<source_branch> isn\x27t specified", "usage: " ++ merge_request_doc]
      ∧ (use_as_os_command environ ⟨false, some [], none⟩ net).outcome
          = ProcOutcome.exited 2
      ∧ (use_as_os_command environ ⟨false, some [], none⟩ net).calls = [])
    ∧ ((use_as_os_command environ ⟨false, some [s], none⟩ net).printed
        = ["<target_branch> isn\x27t specified", "usage: " ++ merge_request_doc]
      ∧ (use_as_os_command environ ⟨false, some [s], none⟩ net).outcome
          = ProcOutcome.exited 2
      ∧ (use_as_os_command environ ⟨false, some [s], none⟩ net).calls = []) := by
  constructor <;> simp [use_as_os_command]

/-- Claim C7: the base-URL accessor yields the value of
`GITLAB_HOST_PROJECT` when set and "http://" otherwise; the token accessor
yields the value of `GITLAB_API_ACCESS_KEY` when set and "" otherwise.  Both
are functions of the current environment, so every call reads the
environment passed to it. -/
theorem config_accessors (environ : Environ) :
    (∀ v, environ "GITLAB_HOST_PROJECT" = some v →
        _service_host_project environ = v)
    ∧ (environ "GITLAB_HOST_PROJECT" = none →
        _service_host_project environ = "http://")
    ∧ (∀ v, environ "GITLAB_API_ACCESS_KEY" = some v →
        _service_access_key environ = v)
    ∧ (environ "GITLAB_API_ACCESS_KEY" = none →
        _service_access_key environ = "") := by
  refine ⟨fun v h => ?_, fun h => ?_, fun v h => ?_, fun h => ?_⟩ <;>
    simp [_service_host_project, _service_access_key, h]

/-- Witness for C7 at concrete environments: a set variable is returned
verbatim, an unset one falls back to the documented default. -/
theorem config_accessors_witness :
    _service_host_project
        (fun k => if k = "GITLAB_HOST_PROJECT" then some "https://gl.test" else none)
      = "https://gl.test"
    ∧ _service_host_project (fun _ => none) = "http://"
    ∧ _service_access_key
        (fun k => if k = "GITLAB_API_ACCESS_KEY" then some "tok123" else none)
      = "tok123"
    ∧ _service_access_key (fun _ => none) = "" :=
  ⟨(config_accessors
      (fun k => if k = "GITLAB_HOST_PROJECT" then some "https://gl.test" else none)).1
      "https://gl.test" (by simp),
   (config_accessors (fun _ => none)).2.1 rfl,
   (config_accessors
      (fun k => if k = "GITLAB_API_ACCESS_KEY" then some "tok123" else none)).2.2.1
      "tok123" (by simp),
   (config_accessors (fun _ => none)).2.2.2 rfl⟩

/-- Claim C8: for every environment, parsed argument set and network oracle,
one process invocation issues at most one outbound HTTP request — never both
operations, never a retry. -/
theorem dispatcher_at_most_one_call (environ : Environ) (args : Args)
    (net : UrlOpenOutcome) :
    (use_as_os_command environ args net).calls.length ≤ 1 := by
  obtain ⟨h, mr, inc⟩ := args
  cases h
  · cases mr with
    | some mrParams =>
        cases h0 : mrParams[0]? with
        | none => simp [use_as_os_command, h0]
        | some src =>
            cases h1 : mrParams[1]? with
            | none => simp [use_as_os_command, h0, h1]
            | some tgt =>
                by_cases hr :
                    (merge_request environ src tgt mrParams[2]? net).ret
                      = some 0 <;>
                  simp [use_as_os_command, h0, h1, hr]
    | none =>
        cases inc with
        | some incParams =>
            cases h0 : incParams[0]? with
            | none => simp [use_as_os_command, h0]
            | some fromB =>
                cases h1 : incParams[1]? with
                | none => simp [use_as_os_command, h0, h1]
                | some toB =>
                    rcases ho : (is_include_branch environ fromB toB net).outcome
                      with b | c | e
                    · cases b <;> simp [use_as_os_command, h0, h1, ho]
                    · simp [use_as_os_command, h0, h1, ho]
                    · simp [use_as_os_command, h0, h1, ho]
        | none => simp [use_as_os_command]
  · simp [use_as_os_command]

/-- Claim C9: when `urlopen` raises `HTTPError` or `URLError`,
`merge_request` prints a diagnostic and falls off the end returning `None`;
since `None` differs from 0, the dispatcher still prints
"Merge request not created." and exits the process with code 1. -/
theorem merge_request_exception_paths (environ : Environ) (s t : String)
    (rest : List String) :
    (∀ code,
        (merge_request environ s t (s :: t :: rest)[2]?
            (UrlOpenOutcome.httpError code)).ret = none
        ∧ (merge_request environ s t (s :: t :: rest)[2]?
            (UrlOpenOutcome.httpError code)).printed ≠ []
        ∧ (use_as_os_command environ ⟨false, some (s :: t :: rest), none⟩
              (UrlOpenOutcome.httpError code)).printed
            = (merge_request environ s t (s :: t :: rest)[2]?
                (UrlOpenOutcome.httpError code)).printed
              ++ ["Merge request not created."]
        ∧ (use_as_os_command environ ⟨false, some (s :: t :: rest), none⟩
              (UrlOpenOutcome.httpError code)).outcome = ProcOutcome.exited 1)
    ∧ (∀ reason,
        (merge_request environ s t (s :: t :: rest)[2]?
            (UrlOpenOutcome.urlError reason)).ret = none
        ∧ (merge_request environ s t (s :: t :: rest)[2]?
            (UrlOpenOutcome.urlError reason)).printed ≠ []
        ∧ (use_as_os_command environ ⟨false, some (s :: t :: rest), none⟩
              (UrlOpenOutcome.urlError reason)).printed
            = (merge_request environ s t (s :: t :: rest)[2]?
                (UrlOpenOutcome.urlError reason)).printed
              ++ ["Merge request not created."]
        ∧ (use_as_os_command environ ⟨false, some (s :: t :: rest), none⟩
              (UrlOpenOutcome.urlError reason)).outcome = ProcOutcome.exited 1) := by
  constructor <;> intro x <;>
    refine ⟨rfl, by simp [merge_request], ?_, ?_⟩ <;>
    simp [use_as_os_command, merge_request]

/-- Claim C10: on a delivered 200 response whose JSON object has no `commit`
key, the lookup raises an uncaught `KeyError`: the checker neither returns a
boolean nor reaches the `sys.exit(1)` path. -/
theorem is_include_branch_missing_commit_keyerror (environ : Environ)
    (f t : String) (kvs : List (String × Json))
    (h : lookupKv kvs "commit" = none) :
    (is_include_branch environ f t
        (UrlOpenOutcome.response 200 (Json.obj kvs))).outcome
      = IncOutcome.raise (PyErr.keyError "commit")
    ∧ (∀ b, (is_include_branch environ f t
        (UrlOpenOutcome.response 200 (Json.obj kvs))).outcome
          ≠ IncOutcome.ret b)
    ∧ (is_include_branch environ f t
        (UrlOpenOutcome.response 200 (Json.obj kvs))).outcome
        ≠ IncOutcome.exit 1 := by
  refine ⟨?_, ?_, ?_⟩ <;> simp [is_include_branch, dictGetItem, h]

/-- Witness for C10: the empty JSON object has no `commit` key and produces
the `KeyError` outcome. -/
theorem is_include_branch_missing_commit_keyerror_witness :
    (is_include_branch (fun _ => none) "alpha" "beta"
        (UrlOpenOutcome.response 200 (Json.obj []))).outcome
      = IncOutcome.raise (PyErr.keyError "commit") :=
  (is_include_branch_missing_commit_keyerror (fun _ => none) "alpha" "beta"
    [] rfl).1
